import Mathlib

/-
Verification of the InfiniBand/RoCEv2 Base Transport Header (BTH) codec
from PcapPlusPlus (src/Packet++/header/InfiniBandLayer.h).

The codec is a view over a byte buffer. We embed buffers as `List Nat`
where each entry models one `uint8_t` cell; reads normalize modulo 256
(the machine-byte invariant) and writes store modulo 256. Multi-byte
fields are big-endian, as on the wire. Sub-word fields are accessed by
mask-and-shift, embedded here with explicit division/modulus by powers
of two.

The header file in the repository declares the accessors but their
bodies live in InfiniBandLayer.cpp, which is not part of the sources;
those accessors are modelled from the specification's wire-layout table
(offsets, bit widths, read-modify-write discipline). The inline bodies
that are present in the header (isInfiniBandPort, getHeaderLen,
computeCalculateFields, the raw-data constructor, getBthHeader) are
translated directly.
-/

/-- A borrowed byte buffer: each entry models one uint8_t cell. -/
abbrev Buffer := List Nat

/-- Read the byte at index `i` (machine bytes are 8-bit, hence the mod 256;
out-of-range reads are modelled as reading the default cell 0). -/
def getByte (buf : Buffer) (i : Nat) : Nat :=
  buf.getD i 0 % 256

/-- Write the byte at index `i`; a uint8_t store truncates to 8 bits. -/
def setByte (buf : Buffer) (i : Nat) (v : Nat) : Buffer :=
  buf.set i (v % 256)

/-- Extract the `w`-bit field that starts `s` bits from the LSB of `u`:
the arithmetic form of `(u >> s) & ((1 << w) - 1)`. -/
def getBits (u s w : Nat) : Nat :=
  u / 2 ^ s % 2 ^ w

/-- Insert `v` into the `w`-bit field `s` bits from the LSB of `u`,
leaving every other bit of `u` unchanged: the arithmetic form of
`(u & ~(mask << s)) | ((v & mask) << s)` (read-modify-write). -/
def setBits (u s w v : Nat) : Nat :=
  u % 2 ^ s + v % 2 ^ w * 2 ^ s + u / 2 ^ (s + w) * 2 ^ (s + w)

/-- Read a 16-bit big-endian (network byte order) value at byte offset `i`. -/
def read16be (buf : Buffer) (i : Nat) : Nat :=
  getByte buf i * 2 ^ 8 + getByte buf (i + 1)

/-- Write a 16-bit value at byte offset `i` in big-endian order. -/
def write16be (buf : Buffer) (i : Nat) (v : Nat) : Buffer :=
  setByte (setByte buf i (v / 2 ^ 8)) (i + 1) v

/-- Read a 32-bit big-endian (network byte order) value at byte offset `i`. -/
def read32be (buf : Buffer) (i : Nat) : Nat :=
  getByte buf i * 2 ^ 24 + getByte buf (i + 1) * 2 ^ 16 + getByte buf (i + 2) * 2 ^ 8 +
    getByte buf (i + 3)

/-- Write a 32-bit value at byte offset `i` in big-endian order. -/
def write32be (buf : Buffer) (i : Nat) (v : Nat) : Buffer :=
  setByte (setByte (setByte (setByte buf i (v / 2 ^ 24)) (i + 1) (v / 2 ^ 16)) (i + 2) (v / 2 ^ 8))
    (i + 3) v

/-
BTH wire layout (spec section 3, all offsets relative to the start of the
header): byte 0 opcode; byte 1 packs SE (bit 7), M (bit 6), PadCount
(bits 5-4), TVer (bits 3-0); bytes 2-3 PKey (16-bit BE); bytes 4-7 one
32-bit BE word packing FECN (bit 31), BECN (bit 30), 6 reserved bits
(29-24) and QPN (23-0); bytes 8-11 one 32-bit BE word packing AckReq
(bit 31), 7 reserved bits (30-24) and PSN (23-0).

The accessor bodies live in InfiniBandLayer.cpp, which is not among the
sources; each accessor below is modelled from the spec's layout table and
its mask-and-shift, read-modify-write discipline.
-/

/-- Modelled from the spec: body of InfiniBandLayer::getOpcode (InfiniBandLayer.cpp
is missing); byte 0, read directly. -/
def getOpcode (buf : Buffer) : Nat :=
  getByte buf 0

/-- Modelled from the spec: body of InfiniBandLayer::setOpcode (InfiniBandLayer.cpp
is missing); byte 0, written directly. -/
def setOpcode (buf : Buffer) (opcode : Nat) : Buffer :=
  setByte buf 0 opcode

/-- Modelled from the spec: body of InfiniBandLayer::getSoliciteEvent
(InfiniBandLayer.cpp is missing); bit 7 of byte 1. -/
def getSoliciteEvent (buf : Buffer) : Bool :=
  getBits (getByte buf 1) 7 1 == 1

/-- Modelled from the spec: body of InfiniBandLayer::setSolicitedEvent
(InfiniBandLayer.cpp is missing); bit 7 of byte 1, read-modify-write. -/
def setSolicitedEvent (buf : Buffer) (se : Bool) : Buffer :=
  setByte buf 1 (setBits (getByte buf 1) 7 1 (cond se 1 0))

/-- Modelled from the spec: body of InfiniBandLayer::getMigrationState
(InfiniBandLayer.cpp is missing); bit 6 of byte 1. -/
def getMigrationState (buf : Buffer) : Bool :=
  getBits (getByte buf 1) 6 1 == 1

/-- Modelled from the spec: body of InfiniBandLayer::setMigrationState
(InfiniBandLayer.cpp is missing); bit 6 of byte 1, read-modify-write. -/
def setMigrationState (buf : Buffer) (mig : Bool) : Buffer :=
  setByte buf 1 (setBits (getByte buf 1) 6 1 (cond mig 1 0))

/-- Modelled from the spec: body of InfiniBandLayer::getPadCount
(InfiniBandLayer.cpp is missing); bits 5-4 of byte 1. -/
def getPadCount (buf : Buffer) : Nat :=
  getBits (getByte buf 1) 4 2

/-- Modelled from the spec: body of InfiniBandLayer::setPadCount
(InfiniBandLayer.cpp is missing); bits 5-4 of byte 1, the value is masked
to the 2-bit field width (narrowing truncation, not an error). -/
def setPadCount (buf : Buffer) (pad : Nat) : Buffer :=
  setByte buf 1 (setBits (getByte buf 1) 4 2 pad)

/-- Modelled from the spec: body of InfiniBandLayer::getTransportHeaderVersion
(InfiniBandLayer.cpp is missing); bits 3-0 of byte 1. -/
def getTransportHeaderVersion (buf : Buffer) : Nat :=
  getBits (getByte buf 1) 0 4

/-- Modelled from the spec: body of InfiniBandLayer::setTransportHeaderVersion
(InfiniBandLayer.cpp is missing); bits 3-0 of byte 1, the value is masked
to the 4-bit field width (narrowing truncation, not an error). -/
def setTransportHeaderVersion (buf : Buffer) (tver : Nat) : Buffer :=
  setByte buf 1 (setBits (getByte buf 1) 0 4 tver)

/-- Modelled from the spec: body of InfiniBandLayer::getPartitionKey
(InfiniBandLayer.cpp is missing); bytes 2-3, 16-bit big-endian. -/
def getPartitionKey (buf : Buffer) : Nat :=
  read16be buf 2

/-- Modelled from the spec: body of InfiniBandLayer::setPartitionKey
(InfiniBandLayer.cpp is missing); bytes 2-3, 16-bit big-endian. -/
def setPartitionKey (buf : Buffer) (pkey : Nat) : Buffer :=
  write16be buf 2 pkey

/-- Modelled from the spec: body of InfiniBandLayer::getQueuePairNumber
(InfiniBandLayer.cpp is missing); low 24 bits of the big-endian word at
bytes 4-7, masking out FECN, BECN and the reserved bits on read. -/
def getQueuePairNumber (buf : Buffer) : Nat :=
  getBits (read32be buf 4) 0 24

/-- Modelled from the spec: body of InfiniBandLayer::setQueuePairNumber
(InfiniBandLayer.cpp is missing); read-modify-write of the low 24 bits of
the word at bytes 4-7, preserving FECN, BECN and the reserved bits. -/
def setQueuePairNumber (buf : Buffer) (qpn : Nat) : Buffer :=
  write32be buf 4 (setBits (read32be buf 4) 0 24 qpn)

/-- Modelled from the spec: body of InfiniBandLayer::getFecn
(InfiniBandLayer.cpp is missing); bit 31 of the word at bytes 4-7. -/
def getFecn (buf : Buffer) : Bool :=
  getBits (read32be buf 4) 31 1 == 1

/-- Modelled from the spec: body of InfiniBandLayer::setFecn
(InfiniBandLayer.cpp is missing); bit 31 of the word at bytes 4-7,
read-modify-write. -/
def setFecn (buf : Buffer) (fecn : Bool) : Buffer :=
  write32be buf 4 (setBits (read32be buf 4) 31 1 (cond fecn 1 0))

/-- Modelled from the spec: body of InfiniBandLayer::getBecn
(InfiniBandLayer.cpp is missing); bit 30 of the word at bytes 4-7. -/
def getBecn (buf : Buffer) : Bool :=
  getBits (read32be buf 4) 30 1 == 1

/-- Modelled from the spec: body of InfiniBandLayer::setBecn
(InfiniBandLayer.cpp is missing); bit 30 of the word at bytes 4-7,
read-modify-write. -/
def setBecn (buf : Buffer) (becn : Bool) : Buffer :=
  write32be buf 4 (setBits (read32be buf 4) 30 1 (cond becn 1 0))

/-- Observer for the 6 reserved bits (29-24) of the word at bytes 4-7,
from the spec's layout table; used to state preservation properties. -/
def getResv6a (buf : Buffer) : Nat :=
  getBits (read32be buf 4) 24 6

/-- Modelled from the spec: body of InfiniBandLayer::setResv6a
(InfiniBandLayer.cpp is missing); zeroes the 6 reserved bits (29-24) of
the word at bytes 4-7 without disturbing FECN, BECN or QPN. -/
def setResv6a (buf : Buffer) : Buffer :=
  write32be buf 4 (setBits (read32be buf 4) 24 6 0)

/-- Modelled from the spec: body of InfiniBandLayer::getAck
(InfiniBandLayer.cpp is missing); bit 31 of the word at bytes 8-11. -/
def getAck (buf : Buffer) : Nat :=
  getBits (read32be buf 8) 31 1

/-- Modelled from the spec: body of InfiniBandLayer::setAck
(InfiniBandLayer.cpp is missing); bit 31 of the word at bytes 8-11,
read-modify-write. -/
def setAck (buf : Buffer) (ack : Nat) : Buffer :=
  write32be buf 8 (setBits (read32be buf 8) 31 1 ack)

/-- Observer for the 7 reserved bits (30-24) of the word at bytes 8-11,
from the spec's layout table; used to state preservation properties. -/
def getResv7 (buf : Buffer) : Nat :=
  getBits (read32be buf 8) 24 7

/-- Modelled from the spec: body of InfiniBandLayer::getPacketSequenceNumber
(InfiniBandLayer.cpp is missing); low 24 bits of the big-endian word at
bytes 8-11, masking out AckReq and the reserved bits on read. -/
def getPacketSequenceNumber (buf : Buffer) : Nat :=
  getBits (read32be buf 8) 0 24

/-- Modelled from the spec: body of InfiniBandLayer::setPacketSequenceNumber
(InfiniBandLayer.cpp is missing); read-modify-write of the low 24 bits of
the word at bytes 8-11, preserving AckReq and the reserved bits. -/
def setPacketSequenceNumber (buf : Buffer) (psn : Nat) : Buffer :=
  write32be buf 8 (setBits (read32be buf 8) 0 24 psn)

/-- Size of the packed struct rxe_bth: uint8_t opcode, uint8_t flags,
uint16_t pkey, uint32_t qpn, uint32_t apsn, with pack(1). -/
def rxe_bth_size : Nat :=
  1 + 1 + 2 + 4 + 4

/-- The layer object: a borrowed view (m_Data) over the packet buffer plus
the length the framework recorded for it. -/
structure InfiniBandLayer where
  m_Data : Buffer
  m_DataLen : Nat

/-- The raw-data constructor InfiniBandLayer(data, dataLen, prevLayer, packet):
its body only forwards data and dataLen to the Layer base (the linkage
arguments do not affect the codec) and performs no validation. -/
def InfiniBandLayer.fromRawData (data : Buffer) (dataLen : Nat) : InfiniBandLayer :=
  ⟨data, dataLen⟩

/-- getHeaderLen returns sizeof(rxe_bth), independent of the state. -/
def InfiniBandLayer.getHeaderLen (_ : InfiniBandLayer) : Nat :=
  rxe_bth_size

/-- computeCalculateFields has an empty body: it does nothing. -/
def InfiniBandLayer.computeCalculateFields (l : InfiniBandLayer) : InfiniBandLayer :=
  l

/-- isInfiniBandPort: true iff the port equals the well-known RoCEv2 port. -/
def isInfiniBandPort (port : Nat) : Bool :=
  port == 4791

/-- Modelled from the spec: body of InfiniBandLayer::isDataValid
(InfiniBandLayer.cpp is missing); the minimum contract is false whenever
the buffer is absent (null pointer, modelled as `none`) or the length is
below the fixed 12-byte header size, true otherwise. -/
def isDataValid (udpData : Option Buffer) (udpDataLen : Nat) : Bool :=
  udpData.isSome && decide (rxe_bth_size ≤ udpDataLen)

/-- Modelled from the spec: body of the field-value constructor
InfiniBandLayer(opcode, soliciteEvent, migrationState, padCount,
partitionKey, queuePairNumber, ackReq, packetSequenceNumber)
(InfiniBandLayer.cpp is missing); it allocates fresh zeroed 12-byte space
and populates the listed fields through the setters (the C++ int
arguments soliciteEvent and migrationState are modelled as Bool, ackReq
as the bit value it stores). -/
def InfiniBandLayer.fromFields (opcode : Nat) (soliciteEvent : Bool) (migrationState : Bool)
    (padCount : Nat) (partitionKey : Nat) (queuePairNumber : Nat) (ackReq : Nat)
    (packetSequenceNumber : Nat) : InfiniBandLayer :=
  ⟨setPacketSequenceNumber
      (setAck
        (setQueuePairNumber
          (setPartitionKey
            (setPadCount
              (setMigrationState
                (setSolicitedEvent (setOpcode (List.replicate rxe_bth_size 0) opcode)
                  soliciteEvent)
                migrationState)
              padCount)
            partitionKey)
          queuePairNumber)
        ackReq)
      packetSequenceNumber,
    rxe_bth_size⟩

/-- The end-to-end scenario of the spec: a layer built from the explicit
field values opcode=0x04, SE=true, M=false, PadCount=2, PKey=0xFFFF,
QPN=0x123456, AckReq=true (bit value 1), PSN=0x00ABCD. -/
def c8Layer : InfiniBandLayer :=
  InfiniBandLayer.fromFields 4 true false 2 65535 1193046 1 43981

/-- The scenario layer serialized to its bytes and re-parsed through the
raw-data constructor. -/
def c8Reparsed : InfiniBandLayer :=
  InfiniBandLayer.fromRawData c8Layer.m_Data c8Layer.m_DataLen

theorem length_setByte (buf : Buffer) (i v : Nat) :
    (setByte buf i v).length = buf.length := by
  simp [setByte]

theorem getByte_lt (buf : Buffer) (i : Nat) : getByte buf i < 256 := by
  simp [getByte]
  exact Nat.mod_lt _ (by norm_num)

theorem getByte_setByte_same (buf : Buffer) (i v : Nat) (h : i < buf.length) :
    getByte (setByte buf i v) i = v % 256 := by
  simp [getByte, setByte, List.getD_eq_getElem?_getD, List.getElem?_set_self, h]

theorem getByte_setByte_other (buf : Buffer) (i j v : Nat) (h : i ≠ j) :
    getByte (setByte buf i v) j = getByte buf j := by
  simp [getByte, setByte, List.getD_eq_getElem?_getD, List.getElem?_set_ne h]

theorem getBits_setBits_same (u s w v : Nat) :
    getBits (setBits u s w v) s w = v % 2 ^ w := by
  unfold getBits setBits
  have hs : 0 < 2 ^ s := Nat.pos_pow_of_pos s (by norm_num)
  have hw : 0 < 2 ^ w := Nat.pos_pow_of_pos w (by norm_num)
  have hsw : 2 ^ (s + w) = 2 ^ s * 2 ^ w := Nat.pow_add 2 s w
  rw [hsw]
  have h1 : u % 2 ^ s + v % 2 ^ w * 2 ^ s + u / (2 ^ s * 2 ^ w) * (2 ^ s * 2 ^ w)
      = u % 2 ^ s + 2 ^ s * (v % 2 ^ w + u / (2 ^ s * 2 ^ w) * 2 ^ w) := by ring
  rw [h1, Nat.add_mul_div_left _ _ hs, Nat.div_eq_of_lt (Nat.mod_lt _ hs), Nat.zero_add,
    Nat.add_mul_mod_self_right, Nat.mod_eq_of_lt (Nat.mod_lt _ hw)]

theorem setBits_low_lt (u s w v : Nat) :
    u % 2 ^ s + v % 2 ^ w * 2 ^ s < 2 ^ (s + w) := by
  have hs : 0 < 2 ^ s := Nat.pos_pow_of_pos s (by norm_num)
  have hw : 0 < 2 ^ w := Nat.pos_pow_of_pos w (by norm_num)
  have h1 : u % 2 ^ s < 2 ^ s := Nat.mod_lt _ hs
  have h2 : v % 2 ^ w * 2 ^ s ≤ (2 ^ w - 1) * 2 ^ s :=
    Nat.mul_le_mul_right _ (by have := Nat.mod_lt v hw; omega)
  have h3 : 2 ^ s + (2 ^ w - 1) * 2 ^ s = 2 ^ (s + w) := by
    rw [Nat.pow_add 2 s w, Nat.sub_one_mul]
    have hcomm : 2 ^ w * 2 ^ s = 2 ^ s * 2 ^ w := Nat.mul_comm _ _
    have hle : 2 ^ s ≤ 2 ^ w * 2 ^ s := Nat.le_mul_of_pos_left _ hw
    omega
  omega

theorem setBits_lt (u s w v N : Nat) (hu : u < 2 ^ N) (hsw : s + w ≤ N) :
    setBits u s w v < 2 ^ N := by
  have hsw0 : 0 < 2 ^ (s + w) := Nat.pos_pow_of_pos _ (by norm_num)
  have hlow : u % 2 ^ s + v % 2 ^ w * 2 ^ s < 2 ^ (s + w) := setBits_low_lt u s w v
  have hq : u / 2 ^ (s + w) + 1 ≤ 2 ^ (N - (s + w)) := by
    have hdiv : u / 2 ^ (s + w) < 2 ^ (N - (s + w)) := by
      apply Nat.div_lt_of_lt_mul
      rw [← Nat.pow_add]
      have he : s + w + (N - (s + w)) = N := by omega
      rw [he]
      exact hu
    omega
  calc setBits u s w v
      = u % 2 ^ s + v % 2 ^ w * 2 ^ s + u / 2 ^ (s + w) * 2 ^ (s + w) := rfl
    _ < 2 ^ (s + w) + u / 2 ^ (s + w) * 2 ^ (s + w) := by omega
    _ = (u / 2 ^ (s + w) + 1) * 2 ^ (s + w) := by ring
    _ ≤ 2 ^ (N - (s + w)) * 2 ^ (s + w) := Nat.mul_le_mul_right _ hq
    _ = 2 ^ N := by
        rw [← Nat.pow_add]
        congr 1
        omega

theorem setBits_mod_low (u s w v : Nat) :
    setBits u s w v % 2 ^ s = u % 2 ^ s := by
  unfold setBits
  obtain ⟨k, hk⟩ : 2 ^ s ∣ 2 ^ (s + w) := pow_dvd_pow 2 (Nat.le_add_right s w)
  have h1 : u % 2 ^ s + v % 2 ^ w * 2 ^ s + u / 2 ^ (s + w) * 2 ^ (s + w)
      = u % 2 ^ s + (v % 2 ^ w + u / 2 ^ (s + w) * k) * 2 ^ s := by
    rw [hk]; ring
  rw [h1, Nat.add_mul_mod_self_right, Nat.mod_mod_of_dvd u dvd_rfl]

theorem getBits_setBits_below (u s w v s' w' : Nat) (h : s' + w' ≤ s) :
    getBits (setBits u s w v) s' w' = getBits u s' w' := by
  unfold getBits
  have hpow : 2 ^ (s' + w') = 2 ^ s' * 2 ^ w' := Nat.pow_add 2 s' w'
  have e1 : ∀ c : Nat, c / 2 ^ s' % 2 ^ w' = c % 2 ^ (s' + w') / 2 ^ s' := by
    intro c
    rw [hpow, Nat.mod_mul_right_div_self]
  rw [e1, e1]
  have hdvd : 2 ^ (s' + w') ∣ 2 ^ s := pow_dvd_pow 2 h
  rw [← Nat.mod_mod_of_dvd (setBits u s w v) hdvd, ← Nat.mod_mod_of_dvd u hdvd,
    setBits_mod_low]

theorem setBits_div_high (u s w v : Nat) :
    setBits u s w v / 2 ^ (s + w) = u / 2 ^ (s + w) := by
  unfold setBits
  have hsw : 0 < 2 ^ (s + w) := Nat.pos_pow_of_pos _ (by norm_num)
  have hlow : u % 2 ^ s + v % 2 ^ w * 2 ^ s < 2 ^ (s + w) := setBits_low_lt u s w v
  have h1 : u % 2 ^ s + v % 2 ^ w * 2 ^ s + u / 2 ^ (s + w) * 2 ^ (s + w)
      = (u % 2 ^ s + v % 2 ^ w * 2 ^ s) + 2 ^ (s + w) * (u / 2 ^ (s + w)) := by ring
  rw [h1, Nat.add_mul_div_left _ _ hsw, Nat.div_eq_of_lt hlow, Nat.zero_add]

theorem getBits_setBits_above (u s w v s' w' : Nat) (h : s + w ≤ s') :
    getBits (setBits u s w v) s' w' = getBits u s' w' := by
  unfold getBits
  have hpow : 2 ^ s' = 2 ^ (s + w) * 2 ^ (s' - (s + w)) := by
    rw [← Nat.pow_add]
    congr 1
    omega
  rw [hpow, ← Nat.div_div_eq_div_mul, ← Nat.div_div_eq_div_mul, setBits_div_high]

theorem read16be_write16be_same (buf : Buffer) (i v : Nat) (h : i + 1 < buf.length) :
    read16be (write16be buf i v) i = v % 2 ^ 16 := by
  unfold read16be write16be
  rw [getByte_setByte_other _ _ _ _ (by omega), getByte_setByte_same _ _ _ (by omega),
    getByte_setByte_same _ _ _ (by rw [length_setByte]; omega)]
  omega

theorem read32be_lt (buf : Buffer) (i : Nat) : read32be buf i < 2 ^ 32 := by
  unfold read32be
  have h0 := getByte_lt buf i
  have h1 := getByte_lt buf (i + 1)
  have h2 := getByte_lt buf (i + 2)
  have h3 := getByte_lt buf (i + 3)
  omega

theorem read32be_write32be_same (buf : Buffer) (i v : Nat) (h : i + 3 < buf.length) :
    read32be (write32be buf i v) i = v % 2 ^ 32 := by
  have b0 : getByte (write32be buf i v) i = v / 2 ^ 24 % 256 := by
    unfold write32be
    rw [getByte_setByte_other _ _ _ _ (by omega), getByte_setByte_other _ _ _ _ (by omega),
      getByte_setByte_other _ _ _ _ (by omega),
      getByte_setByte_same _ _ _ (by omega)]
  have b1 : getByte (write32be buf i v) (i + 1) = v / 2 ^ 16 % 256 := by
    unfold write32be
    rw [getByte_setByte_other _ _ _ _ (by omega), getByte_setByte_other _ _ _ _ (by omega),
      getByte_setByte_same _ _ _ (by rw [length_setByte]; omega)]
  have b2 : getByte (write32be buf i v) (i + 2) = v / 2 ^ 8 % 256 := by
    unfold write32be
    rw [getByte_setByte_other _ _ _ _ (by omega),
      getByte_setByte_same _ _ _ (by rw [length_setByte, length_setByte]; omega)]
  have b3 : getByte (write32be buf i v) (i + 3) = v % 256 := by
    unfold write32be
    rw [getByte_setByte_same _ _ _
      (by rw [length_setByte, length_setByte, length_setByte]; omega)]
  unfold read32be
  rw [b0, b1, b2, b3]
  omega

theorem byte1_rmw (buf : Buffer) (h : 12 ≤ buf.length) (s w v : Nat) (hsw : s + w ≤ 8) :
    getByte (setByte buf 1 (setBits (getByte buf 1) s w v)) 1
      = setBits (getByte buf 1) s w v := by
  rw [getByte_setByte_same _ _ _ (by omega)]
  have hlt : setBits (getByte buf 1) s w v < 2 ^ 8 :=
    setBits_lt _ _ _ _ 8 (by have := getByte_lt buf 1; omega) hsw
  exact Nat.mod_eq_of_lt (by omega)

theorem word_rmw (buf : Buffer) (i : Nat) (h : i + 3 < buf.length) (s w v : Nat)
    (hsw : s + w ≤ 32) :
    read32be (write32be buf i (setBits (read32be buf i) s w v)) i
      = setBits (read32be buf i) s w v := by
  rw [read32be_write32be_same _ _ _ h]
  exact Nat.mod_eq_of_lt (setBits_lt _ _ _ _ 32 (read32be_lt buf i) hsw)

/-- C1: for every BTH field exposed by a getter/setter pair (Opcode, SE, M,
PadCount, TVer, PKey, FECN, BECN, QPN, AckReq, PSN) with bit width W, and
for every value v in [0, 2^W - 1], on a view over a buffer of at least 12
bytes, calling the setter with v and then the getter returns exactly v. -/
theorem C1_field_roundtrip (buf : Buffer) (h : 12 ≤ buf.length) :
    (∀ v, v < 2 ^ 8 → getOpcode (setOpcode buf v) = v)
    ∧ (∀ se : Bool, getSoliciteEvent (setSolicitedEvent buf se) = se)
    ∧ (∀ mig : Bool, getMigrationState (setMigrationState buf mig) = mig)
    ∧ (∀ v, v < 2 ^ 2 → getPadCount (setPadCount buf v) = v)
    ∧ (∀ v, v < 2 ^ 4 → getTransportHeaderVersion (setTransportHeaderVersion buf v) = v)
    ∧ (∀ v, v < 2 ^ 16 → getPartitionKey (setPartitionKey buf v) = v)
    ∧ (∀ fecn : Bool, getFecn (setFecn buf fecn) = fecn)
    ∧ (∀ becn : Bool, getBecn (setBecn buf becn) = becn)
    ∧ (∀ v, v < 2 ^ 24 → getQueuePairNumber (setQueuePairNumber buf v) = v)
    ∧ (∀ v, v < 2 ^ 1 → getAck (setAck buf v) = v)
    ∧ (∀ v, v < 2 ^ 24 → getPacketSequenceNumber (setPacketSequenceNumber buf v) = v) := by
  refine ⟨?_, ?_, ?_, ?_, ?_, ?_, ?_, ?_, ?_, ?_, ?_⟩
  · intro v hv
    unfold getOpcode setOpcode
    rw [getByte_setByte_same _ _ _ (by omega)]
    omega
  · intro se
    unfold getSoliciteEvent setSolicitedEvent
    rw [byte1_rmw buf h 7 1 _ (by omega), getBits_setBits_same]
    cases se <;> rfl
  · intro mig
    unfold getMigrationState setMigrationState
    rw [byte1_rmw buf h 6 1 _ (by omega), getBits_setBits_same]
    cases mig <;> rfl
  · intro v hv
    unfold getPadCount setPadCount
    rw [byte1_rmw buf h 4 2 _ (by omega), getBits_setBits_same]
    omega
  · intro v hv
    unfold getTransportHeaderVersion setTransportHeaderVersion
    rw [byte1_rmw buf h 0 4 _ (by omega), getBits_setBits_same]
    omega
  · intro v hv
    unfold getPartitionKey setPartitionKey
    rw [read16be_write16be_same _ _ _ (by omega)]
    omega
  · intro fecn
    unfold getFecn setFecn
    rw [word_rmw buf 4 (by omega) 31 1 _ (by omega), getBits_setBits_same]
    cases fecn <;> rfl
  · intro becn
    unfold getBecn setBecn
    rw [word_rmw buf 4 (by omega) 30 1 _ (by omega), getBits_setBits_same]
    cases becn <;> rfl
  · intro v hv
    unfold getQueuePairNumber setQueuePairNumber
    rw [word_rmw buf 4 (by omega) 0 24 _ (by omega), getBits_setBits_same]
    omega
  · intro v hv
    unfold getAck setAck
    rw [word_rmw buf 8 (by omega) 31 1 _ (by omega), getBits_setBits_same]
    omega
  · intro v hv
    unfold getPacketSequenceNumber setPacketSequenceNumber
    rw [word_rmw buf 8 (by omega) 0 24 _ (by omega), getBits_setBits_same]
    omega

/-- Witness for C1 at the concrete all-zero 12-byte buffer, one concrete
value per field. -/
theorem C1_field_roundtrip_witness :
    12 ≤ (List.replicate 12 0 : Buffer).length
    ∧ getOpcode (setOpcode (List.replicate 12 0) 171) = 171
    ∧ getSoliciteEvent (setSolicitedEvent (List.replicate 12 0) true) = true
    ∧ getMigrationState (setMigrationState (List.replicate 12 0) true) = true
    ∧ getPadCount (setPadCount (List.replicate 12 0) 3) = 3
    ∧ getTransportHeaderVersion (setTransportHeaderVersion (List.replicate 12 0) 11) = 11
    ∧ getPartitionKey (setPartitionKey (List.replicate 12 0) 65535) = 65535
    ∧ getFecn (setFecn (List.replicate 12 0) true) = true
    ∧ getBecn (setBecn (List.replicate 12 0) true) = true
    ∧ getQueuePairNumber (setQueuePairNumber (List.replicate 12 0) 1193046) = 1193046
    ∧ getAck (setAck (List.replicate 12 0) 1) = 1
    ∧ getPacketSequenceNumber (setPacketSequenceNumber (List.replicate 12 0) 43981) = 43981 := by
  have H := C1_field_roundtrip (List.replicate 12 0) (by decide)
  exact ⟨by decide, H.1 171 (by decide), H.2.1 true, H.2.2.1 true, H.2.2.2.1 3 (by decide),
    H.2.2.2.2.1 11 (by decide), H.2.2.2.2.2.1 65535 (by decide), H.2.2.2.2.2.2.1 true,
    H.2.2.2.2.2.2.2.1 true, H.2.2.2.2.2.2.2.2.1 1193046 (by decide),
    H.2.2.2.2.2.2.2.2.2.1 1 (by decide), H.2.2.2.2.2.2.2.2.2.2 43981 (by decide)⟩

/-- C2: on a view over a buffer of at least 12 bytes, setting any one of
SE, M, PadCount or TVer leaves the other three fields packed in byte 1
unchanged; setting any one of FECN, BECN or QPN leaves the other two and
the 6 reserved bits of the QPN word unchanged; getting QPN or PSN masks
out the flag/reserved bits sharing their 32-bit word; and setting QPN or
PSN preserves those flag/reserved bits (read-modify-write). -/
theorem C2_sibling_isolation (buf : Buffer) (h : 12 ≤ buf.length) :
    (∀ se : Bool, getMigrationState (setSolicitedEvent buf se) = getMigrationState buf
      ∧ getPadCount (setSolicitedEvent buf se) = getPadCount buf
      ∧ getTransportHeaderVersion (setSolicitedEvent buf se) = getTransportHeaderVersion buf)
    ∧ (∀ mig : Bool, getSoliciteEvent (setMigrationState buf mig) = getSoliciteEvent buf
      ∧ getPadCount (setMigrationState buf mig) = getPadCount buf
      ∧ getTransportHeaderVersion (setMigrationState buf mig) = getTransportHeaderVersion buf)
    ∧ (∀ pad : Nat, getSoliciteEvent (setPadCount buf pad) = getSoliciteEvent buf
      ∧ getMigrationState (setPadCount buf pad) = getMigrationState buf
      ∧ getTransportHeaderVersion (setPadCount buf pad) = getTransportHeaderVersion buf)
    ∧ (∀ tver : Nat, getSoliciteEvent (setTransportHeaderVersion buf tver) = getSoliciteEvent buf
      ∧ getMigrationState (setTransportHeaderVersion buf tver) = getMigrationState buf
      ∧ getPadCount (setTransportHeaderVersion buf tver) = getPadCount buf)
    ∧ (∀ fecn : Bool, getBecn (setFecn buf fecn) = getBecn buf
      ∧ getQueuePairNumber (setFecn buf fecn) = getQueuePairNumber buf
      ∧ getResv6a (setFecn buf fecn) = getResv6a buf)
    ∧ (∀ becn : Bool, getFecn (setBecn buf becn) = getFecn buf
      ∧ getQueuePairNumber (setBecn buf becn) = getQueuePairNumber buf
      ∧ getResv6a (setBecn buf becn) = getResv6a buf)
    ∧ (∀ qpn : Nat, getFecn (setQueuePairNumber buf qpn) = getFecn buf
      ∧ getBecn (setQueuePairNumber buf qpn) = getBecn buf
      ∧ getResv6a (setQueuePairNumber buf qpn) = getResv6a buf)
    ∧ (getQueuePairNumber buf = read32be buf 4 % 2 ^ 24
      ∧ getPacketSequenceNumber buf = read32be buf 8 % 2 ^ 24)
    ∧ (∀ psn : Nat, getAck (setPacketSequenceNumber buf psn) = getAck buf
      ∧ getResv7 (setPacketSequenceNumber buf psn) = getResv7 buf) := by
  refine ⟨?_, ?_, ?_, ?_, ?_, ?_, ?_, ?_, ?_⟩
  · intro se
    unfold getMigrationState getPadCount getTransportHeaderVersion setSolicitedEvent
    rw [byte1_rmw buf h 7 1 _ (by omega)]
    exact ⟨by rw [getBits_setBits_below _ _ _ _ _ _ (by omega)],
      by rw [getBits_setBits_below _ _ _ _ _ _ (by omega)],
      by rw [getBits_setBits_below _ _ _ _ _ _ (by omega)]⟩
  · intro mig
    unfold getSoliciteEvent getPadCount getTransportHeaderVersion setMigrationState
    rw [byte1_rmw buf h 6 1 _ (by omega)]
    exact ⟨by rw [getBits_setBits_above _ _ _ _ _ _ (by omega)],
      by rw [getBits_setBits_below _ _ _ _ _ _ (by omega)],
      by rw [getBits_setBits_below _ _ _ _ _ _ (by omega)]⟩
  · intro pad
    unfold getSoliciteEvent getMigrationState getTransportHeaderVersion setPadCount
    rw [byte1_rmw buf h 4 2 _ (by omega)]
    exact ⟨by rw [getBits_setBits_above _ _ _ _ _ _ (by omega)],
      by rw [getBits_setBits_above _ _ _ _ _ _ (by omega)],
      by rw [getBits_setBits_below _ _ _ _ _ _ (by omega)]⟩
  · intro tver
    unfold getSoliciteEvent getMigrationState getPadCount setTransportHeaderVersion
    rw [byte1_rmw buf h 0 4 _ (by omega)]
    exact ⟨by rw [getBits_setBits_above _ _ _ _ _ _ (by omega)],
      by rw [getBits_setBits_above _ _ _ _ _ _ (by omega)],
      by rw [getBits_setBits_above _ _ _ _ _ _ (by omega)]⟩
  · intro fecn
    unfold getBecn getQueuePairNumber getResv6a setFecn
    rw [word_rmw buf 4 (by omega) 31 1 _ (by omega)]
    exact ⟨by rw [getBits_setBits_below _ _ _ _ _ _ (by omega)],
      by rw [getBits_setBits_below _ _ _ _ _ _ (by omega)],
      by rw [getBits_setBits_below _ _ _ _ _ _ (by omega)]⟩
  · intro becn
    unfold getFecn getQueuePairNumber getResv6a setBecn
    rw [word_rmw buf 4 (by omega) 30 1 _ (by omega)]
    exact ⟨by rw [getBits_setBits_above _ _ _ _ _ _ (by omega)],
      by rw [getBits_setBits_below _ _ _ _ _ _ (by omega)],
      by rw [getBits_setBits_below _ _ _ _ _ _ (by omega)]⟩
  · intro qpn
    unfold getFecn getBecn getResv6a setQueuePairNumber
    rw [word_rmw buf 4 (by omega) 0 24 _ (by omega)]
    exact ⟨by rw [getBits_setBits_above _ _ _ _ _ _ (by omega)],
      by rw [getBits_setBits_above _ _ _ _ _ _ (by omega)],
      by rw [getBits_setBits_above _ _ _ _ _ _ (by omega)]⟩
  · constructor
    · unfold getQueuePairNumber getBits
      norm_num
    · unfold getPacketSequenceNumber getBits
      norm_num
  · intro psn
    unfold getAck getResv7 setPacketSequenceNumber
    rw [word_rmw buf 8 (by omega) 0 24 _ (by omega)]
    exact ⟨by rw [getBits_setBits_above _ _ _ _ _ _ (by omega)],
      by rw [getBits_setBits_above _ _ _ _ _ _ (by omega)]⟩

/-- Witness for C2 at a concrete 12-byte buffer with every field
populated, one concrete set value per setter. -/
theorem C2_sibling_isolation_witness :
    12 ≤ ([1, 255, 2, 3, 255, 255, 255, 255, 255, 255, 255, 255] : Buffer).length
    ∧ getMigrationState
        (setSolicitedEvent [1, 255, 2, 3, 255, 255, 255, 255, 255, 255, 255, 255] false)
      = getMigrationState [1, 255, 2, 3, 255, 255, 255, 255, 255, 255, 255, 255]
    ∧ getPadCount (setMigrationState [1, 255, 2, 3, 255, 255, 255, 255, 255, 255, 255, 255] false)
      = getPadCount [1, 255, 2, 3, 255, 255, 255, 255, 255, 255, 255, 255]
    ∧ getSoliciteEvent (setPadCount [1, 255, 2, 3, 255, 255, 255, 255, 255, 255, 255, 255] 0)
      = getSoliciteEvent [1, 255, 2, 3, 255, 255, 255, 255, 255, 255, 255, 255]
    ∧ getPadCount
        (setTransportHeaderVersion [1, 255, 2, 3, 255, 255, 255, 255, 255, 255, 255, 255] 0)
      = getPadCount [1, 255, 2, 3, 255, 255, 255, 255, 255, 255, 255, 255]
    ∧ getBecn (setFecn [1, 255, 2, 3, 255, 255, 255, 255, 255, 255, 255, 255] false)
      = getBecn [1, 255, 2, 3, 255, 255, 255, 255, 255, 255, 255, 255]
    ∧ getResv6a (setBecn [1, 255, 2, 3, 255, 255, 255, 255, 255, 255, 255, 255] false)
      = getResv6a [1, 255, 2, 3, 255, 255, 255, 255, 255, 255, 255, 255]
    ∧ getFecn (setQueuePairNumber [1, 255, 2, 3, 255, 255, 255, 255, 255, 255, 255, 255] 7)
      = getFecn [1, 255, 2, 3, 255, 255, 255, 255, 255, 255, 255, 255]
    ∧ getQueuePairNumber [1, 255, 2, 3, 255, 255, 255, 255, 255, 255, 255, 255]
      = read32be [1, 255, 2, 3, 255, 255, 255, 255, 255, 255, 255, 255] 4 % 2 ^ 24
    ∧ getAck (setPacketSequenceNumber [1, 255, 2, 3, 255, 255, 255, 255, 255, 255, 255, 255] 9)
      = getAck [1, 255, 2, 3, 255, 255, 255, 255, 255, 255, 255, 255] := by
  have H := C2_sibling_isolation [1, 255, 2, 3, 255, 255, 255, 255, 255, 255, 255, 255] (by decide)
  exact ⟨by decide, (H.1 false).1, (H.2.1 false).2.1, (H.2.2.1 0).1, (H.2.2.2.1 0).2.2,
    (H.2.2.2.2.1 false).1, (H.2.2.2.2.2.1 false).2.2, (H.2.2.2.2.2.2.1 7).1,
    H.2.2.2.2.2.2.2.1.1, (H.2.2.2.2.2.2.2.2 9).1⟩

/-- C3: for every value v of the setter's uint8_t argument type that is
wider than the field's bit width W, calling setPadCount(v) (W = 2) or
setTransportHeaderVersion(v) (W = 4) and then reading the field back
yields v mod 2^W: the value is masked to the field width rather than
rejected or failing. -/
theorem C3_truncation (buf : Buffer) (h : 12 ≤ buf.length) :
    ∀ v, v < 2 ^ 8 →
      getPadCount (setPadCount buf v) = v % 2 ^ 2
      ∧ getTransportHeaderVersion (setTransportHeaderVersion buf v) = v % 2 ^ 4 := by
  intro v _
  constructor
  · unfold getPadCount setPadCount
    rw [byte1_rmw buf h 4 2 _ (by omega), getBits_setBits_same]
  · unfold getTransportHeaderVersion setTransportHeaderVersion
    rw [byte1_rmw buf h 0 4 _ (by omega), getBits_setBits_same]

/-- Witness for C3 at the all-zero 12-byte buffer with the out-of-width
value 0xFF: the fields read back as 0xFF mod 4 and 0xFF mod 16. -/
theorem C3_truncation_witness :
    getPadCount (setPadCount (List.replicate 12 0) 255) = 3
    ∧ getTransportHeaderVersion (setTransportHeaderVersion (List.replicate 12 0) 255) = 15 :=
  C3_truncation (List.replicate 12 0) (by decide) 255 (by decide)

/-- C4: on a view over a buffer of at least 12 bytes, after setResv6a the
6 reserved bits of the QPN word read as 0, while the FECN, BECN, and QPN
values observed before the call are unchanged. -/
theorem C4_reserved_clear (buf : Buffer) (h : 12 ≤ buf.length) :
    getResv6a (setResv6a buf) = 0
    ∧ getFecn (setResv6a buf) = getFecn buf
    ∧ getBecn (setResv6a buf) = getBecn buf
    ∧ getQueuePairNumber (setResv6a buf) = getQueuePairNumber buf := by
  unfold getResv6a getFecn getBecn getQueuePairNumber setResv6a
  rw [word_rmw buf 4 (by omega) 24 6 _ (by omega)]
  refine ⟨by rw [getBits_setBits_same]; norm_num, ?_, ?_, ?_⟩
  · rw [getBits_setBits_above _ _ _ _ _ _ (by omega)]
  · rw [getBits_setBits_above _ _ _ _ _ _ (by omega)]
  · rw [getBits_setBits_below _ _ _ _ _ _ (by omega)]

/-- Witness for C4 at a concrete 12-byte buffer whose QPN word is all
ones, so the reserved bits start nonzero and every neighbouring field is
populated. -/
theorem C4_reserved_clear_witness :
    getResv6a (setResv6a [0, 0, 0, 0, 255, 255, 255, 255, 0, 0, 0, 0]) = 0
    ∧ getFecn (setResv6a [0, 0, 0, 0, 255, 255, 255, 255, 0, 0, 0, 0])
      = getFecn [0, 0, 0, 0, 255, 255, 255, 255, 0, 0, 0, 0]
    ∧ getBecn (setResv6a [0, 0, 0, 0, 255, 255, 255, 255, 0, 0, 0, 0])
      = getBecn [0, 0, 0, 0, 255, 255, 255, 255, 0, 0, 0, 0]
    ∧ getQueuePairNumber (setResv6a [0, 0, 0, 0, 255, 255, 255, 255, 0, 0, 0, 0])
      = getQueuePairNumber [0, 0, 0, 0, 255, 255, 255, 255, 0, 0, 0, 0] :=
  C4_reserved_clear [0, 0, 0, 0, 255, 255, 255, 255, 0, 0, 0, 0] (by decide)

/-- C5: for every 16-bit port value p, isInfiniBandPort(p) returns true
if and only if p equals 4791; in particular it returns false for 80, 443,
and 0. -/
theorem C5_port_detection (p : Nat) (_hp : p < 2 ^ 16) :
    (isInfiniBandPort p = true ↔ p = 4791)
    ∧ isInfiniBandPort 80 = false
    ∧ isInfiniBandPort 443 = false
    ∧ isInfiniBandPort 0 = false := by
  refine ⟨?_, by decide, by decide, by decide⟩
  unfold isInfiniBandPort
  simp

/-- Witness for C5 at the concrete port 4791. -/
theorem C5_port_detection_witness :
    (isInfiniBandPort 4791 = true ↔ 4791 = 4791)
    ∧ isInfiniBandPort 80 = false
    ∧ isInfiniBandPort 443 = false
    ∧ isInfiniBandPort 0 = false :=
  C5_port_detection 4791 (by decide)

/-- C6: isDataValid returns false whenever the length is below 12 or the
buffer pointer is absent (null), and returns true for every non-null
buffer with length exactly 12. -/
theorem C6_data_valid :
    (∀ (udpData : Option Buffer) (udpDataLen : Nat), udpDataLen < 12 →
      isDataValid udpData udpDataLen = false)
    ∧ (∀ udpDataLen : Nat, isDataValid none udpDataLen = false)
    ∧ (∀ udpData : Buffer, isDataValid (some udpData) 12 = true) := by
  refine ⟨?_, ?_, ?_⟩
  · intro b l hl
    unfold isDataValid
    have e : decide (rxe_bth_size ≤ l) = false := by
      unfold rxe_bth_size
      simp
      omega
    rw [e, Bool.and_false]
  · intro l
    rfl
  · intro b
    rfl

/-- Witness for C6 at concrete inputs: an 11-byte length, a null buffer,
and a non-null buffer of length exactly 12. -/
theorem C6_data_valid_witness :
    isDataValid (some (List.replicate 11 0)) 11 = false
    ∧ isDataValid none 12 = false
    ∧ isDataValid (some (List.replicate 12 0)) 12 = true :=
  ⟨C6_data_valid.1 (some (List.replicate 11 0)) 11 (by decide),
    C6_data_valid.2.1 12, C6_data_valid.2.2 (List.replicate 12 0)⟩

/-- C7: for every state of the layer and of the underlying buffer,
getHeaderLen returns exactly 12; since the result is independent of the
state, no operation of the codec can change it. -/
theorem C7_header_len : ∀ l : InfiniBandLayer, l.getHeaderLen = 12 :=
  fun _ => rfl

/-- C8: constructing a layer from the explicit field values opcode=0x04,
SE=true, M=false, PadCount=2, PKey=0xFFFF, QPN=0x123456, AckReq=true,
PSN=0x00ABCD, serializing it to bytes, and re-parsing those bytes through
the raw-data constructor yields a view on which every getter returns the
original value, and the serialized byte length equals 12. -/
theorem C8_end_to_end :
    c8Reparsed.m_Data.length = 12
    ∧ c8Reparsed.m_DataLen = 12
    ∧ getOpcode c8Reparsed.m_Data = 4
    ∧ getSoliciteEvent c8Reparsed.m_Data = true
    ∧ getMigrationState c8Reparsed.m_Data = false
    ∧ getPadCount c8Reparsed.m_Data = 2
    ∧ getPartitionKey c8Reparsed.m_Data = 65535
    ∧ getQueuePairNumber c8Reparsed.m_Data = 1193046
    ∧ getAck c8Reparsed.m_Data = 1
    ∧ getPacketSequenceNumber c8Reparsed.m_Data = 43981 := by
  decide

/-- C9: computeCalculateFields is a no-op: for every state of the layer,
calling it returns the layer unchanged, so the 12 header bytes and every
observable field value are unchanged. -/
theorem C9_compute_noop :
    ∀ l : InfiniBandLayer,
      l.computeCalculateFields = l ∧ (l.computeCalculateFields).m_Data = l.m_Data :=
  fun _ => ⟨rfl, rfl⟩

/-- C10: the raw-data constructor performs no validation of its own: for
every dataLen, including dataLen < 12 where isDataValid rejects the
buffer, a view is constructed holding exactly the given data and length,
it still reports the fixed 12-byte header size, and the accessors still
reinterpret the (possibly short) buffer without any bounds check. -/
theorem C10_raw_ctor_no_validation :
    ∀ (data : Buffer) (dataLen : Nat), dataLen < 12 →
      (InfiniBandLayer.fromRawData data dataLen).m_Data = data
      ∧ (InfiniBandLayer.fromRawData data dataLen).m_DataLen = dataLen
      ∧ isDataValid (some data) dataLen = false
      ∧ (InfiniBandLayer.fromRawData data dataLen).getHeaderLen = 12
      ∧ getOpcode (InfiniBandLayer.fromRawData data dataLen).m_Data = getByte data 0 := by
  intro data dataLen hl
  refine ⟨rfl, rfl, ?_, rfl, rfl⟩
  unfold isDataValid
  have e : decide (rxe_bth_size ≤ dataLen) = false := by
    unfold rxe_bth_size
    simp
    omega
  rw [e, Bool.and_false]

/-- Witness for C10 at the empty buffer with length 0. -/
theorem C10_raw_ctor_no_validation_witness :
    (InfiniBandLayer.fromRawData [] 0).m_Data = []
    ∧ (InfiniBandLayer.fromRawData [] 0).m_DataLen = 0
    ∧ isDataValid (some []) 0 = false
    ∧ (InfiniBandLayer.fromRawData [] 0).getHeaderLen = 12
    ∧ getOpcode (InfiniBandLayer.fromRawData [] 0).m_Data = getByte [] 0 :=
  C10_raw_ctor_no_validation [] 0 (by decide)
